import Mathlib

/-!
Verification development for the EdgeAI PySide6 / GStreamer / YOLO-ONNX
pipeline repository.

The Python sources are shallowly embedded:

* `yolo_detector_optimized_phase1.py` — the `YOLODetectorNMS.postprocess`
  filtering loop is embedded as `processPred` / `postprocess` over exact
  rationals (the float comparisons and the subtraction `x2 - x1` are
  order-faithful for the comparisons the code performs).
* `gstreamer_controller.py` — the `GStreamerController` attribute state and
  its public mutators (`start_preview`, `stop_preview`, `start_detection`,
  `stop_detection`, the bus handler and the 500 ms one-shot valve callback)
  are embedded as pure functions on `ControllerState` that also emit a trace
  of the GStreamer property mutations they perform, each step tagged with
  whether it was applied directly on the calling thread or marshalled onto
  the GLib main context as a scheduled work item.
* `gstreamer_preview_detect.py` — the `GStreamerPreviewDetect` state and
  `set_detection_enabled` / `stop` / its bus handler, same style.

Python `int(...)` on a numeric value truncates toward zero; this is `pyInt`.
The `coco_classes` module (COCO_CLASSES list and `get_class_name`) is not
part of the analysed sources, so the number of classes and the id→name
mapping are parameters of the embedding.
-/

namespace EdgeAI

/-- Python `int(q)` on a real-valued quantity: truncation toward zero. -/
def pyInt (q : ℚ) : ℤ := if 0 ≤ q then ⌊q⌋ else ⌈q⌉

/-- One raw model output row `[x1, y1, x2, y2, confidence, class_id]`
(the model output is `[1, N, 6]`, NMS already applied). -/
structure RawPred where
  x1 : ℚ
  y1 : ℚ
  x2 : ℚ
  y2 : ℚ
  confidence : ℚ
  class_id : ℚ
deriving DecidableEq, Repr

/-- The detection dictionary built by `YOLODetectorNMS.postprocess`:
`{x, y, w, h, class_id, class_name, confidence}`. -/
structure Detection where
  x : ℚ
  y : ℚ
  w : ℚ
  h : ℚ
  class_id : ℤ
  class_name : String
  confidence : ℚ
deriving DecidableEq, Repr

/-- The body of the `for pred in predictions` loop of
`YOLODetectorNMS.postprocess`: returns the detection appended for this row,
or `none` when one of the three `continue` filters fires.
`numClasses` stands for `len(COCO_CLASSES)` and `getName` for
`get_class_name`, both from the `coco_classes` module. -/
def processPred (conf_threshold : ℚ) (numClasses : ℕ) (getName : ℤ → String)
    (p : RawPred) : Option Detection :=
  -- FILTER 1: `if confidence < self.conf_threshold: continue`
  if p.confidence < conf_threshold then none
  -- FILTER 2: `class_id = int(class_id)`; reject `class_id < 0 or class_id >= len(COCO_CLASSES)`
  else if pyInt p.class_id < 0 ∨ (numClasses : ℤ) ≤ pyInt p.class_id then none
  -- FILTER 3: `width = x2 - x1; height = y2 - y1`; reject `width <= 0 or height <= 0`
  else if p.x2 - p.x1 ≤ 0 ∨ p.y2 - p.y1 ≤ 0 then none
  else some
    { x := p.x1
      y := p.y1
      w := p.x2 - p.x1
      h := p.y2 - p.y1
      class_id := pyInt p.class_id
      class_name := getName (pyInt p.class_id)
      confidence := p.confidence }

/-- `YOLODetectorNMS.postprocess` with the batch dimension already removed:
the loop accumulates the surviving rows in order. -/
def postprocess (conf_threshold : ℚ) (numClasses : ℕ) (getName : ℤ → String)
    (predictions : List RawPred) : List Detection :=
  predictions.filterMap (processPred conf_threshold numClasses getName)

/-- Helper: the loop body keeps a raw row exactly when all three filters pass. -/
theorem processPred_isSome_iff (c : ℚ) (n : ℕ) (g : ℤ → String) (p : RawPred) :
    (processPred c n g p).isSome ↔
      c ≤ p.confidence ∧ 0 ≤ pyInt p.class_id ∧ pyInt p.class_id < (n : ℤ) ∧
      p.x1 < p.x2 ∧ p.y1 < p.y2 := by
  unfold processPred
  split_ifs with h1 h2 h3
  · simp only [Option.isSome_none, Bool.false_eq_true, false_iff]
    rintro ⟨hc, -, -, -, -⟩
    exact absurd h1 (not_lt.mpr hc)
  · simp only [Option.isSome_none, Bool.false_eq_true, false_iff]
    rintro ⟨-, h0, hn, -, -⟩
    rcases h2 with h2 | h2 <;> omega
  · simp only [Option.isSome_none, Bool.false_eq_true, false_iff]
    rintro ⟨-, -, -, hx, hy⟩
    rcases h3 with h3 | h3 <;> linarith
  · push_neg at h1 h2 h3
    simp only [Option.isSome_some, true_iff]
    refine ⟨h1, ?_, ?_, ?_, ?_⟩
    · omega
    · omega
    · linarith [h3.1]
    · linarith [h3.2]

/-- Helper: what a surviving row looks like. -/
theorem processPred_eq_some (c : ℚ) (n : ℕ) (g : ℤ → String) (p : RawPred)
    (d : Detection) (h : processPred c n g p = some d) :
    d.w = p.x2 - p.x1 ∧ d.h = p.y2 - p.y1 ∧ d.confidence = p.confidence ∧
    d.class_id = pyInt p.class_id ∧
    c ≤ p.confidence ∧ 0 ≤ pyInt p.class_id ∧ pyInt p.class_id < (n : ℤ) ∧
    p.x1 < p.x2 ∧ p.y1 < p.y2 := by
  have hs := (processPred_isSome_iff c n g p).mp (by rw [h]; rfl)
  unfold processPred at h
  split_ifs at h with h1 h2 h3
  simp only [Option.some.injEq] at h
  subst h
  exact ⟨rfl, rfl, rfl, rfl, hs⟩

/-- C1: a raw prediction row yields a detection in the list returned by
`YOLODetectorNMS.postprocess` iff its confidence is at least the configured
threshold (inclusive at equality), `int(class_id)` lies in
`[0, num_classes)`, `x2 > x1` and `y2 > y1`; consequently every returned
detection has `w > 0`, `h > 0`, confidence at least the threshold and a
class id in range, and a row failing the confidence bound or with a
degenerate box is excluded. -/
theorem postprocess_filter_characterization (c : ℚ) (n : ℕ) (g : ℤ → String)
    (predictions : List RawPred) :
    (∀ p : RawPred,
        ((processPred c n g p).isSome ↔
          c ≤ p.confidence ∧ 0 ≤ pyInt p.class_id ∧ pyInt p.class_id < (n : ℤ) ∧
          p.x1 < p.x2 ∧ p.y1 < p.y2)) ∧
    (∀ d ∈ postprocess c n g predictions,
        0 < d.w ∧ 0 < d.h ∧ c ≤ d.confidence ∧
        0 ≤ d.class_id ∧ d.class_id < (n : ℤ)) ∧
    (∀ p : RawPred,
        (p.confidence < c ∨ p.x2 ≤ p.x1 ∨ p.y2 ≤ p.y1) →
        processPred c n g p = none) := by
  refine ⟨processPred_isSome_iff c n g, ?_, ?_⟩
  · intro d hd
    rw [postprocess, List.mem_filterMap] at hd
    obtain ⟨p, -, hp⟩ := hd
    obtain ⟨hw, hh, hconf, hcid, hc, h0, hn, hx, hy⟩ :=
      processPred_eq_some c n g p d hp
    refine ⟨?_, ?_, ?_, ?_, ?_⟩
    · rw [hw]; linarith
    · rw [hh]; linarith
    · rw [hconf]; exact hc
    · rw [hcid]; exact h0
    · rw [hcid]; exact hn
  · intro p hbad
    by_contra hne
    have hs : (processPred c n g p).isSome := by
      cases hcase : processPred c n g p with
      | none => exact absurd hcase hne
      | some d => rfl
    obtain ⟨hc, -, -, hx, hy⟩ := (processPred_isSome_iff c n g p).mp hs
    rcases hbad with hb | hb | hb <;> linarith

/-- Witness for C1 at a concrete row: confidence exactly at the threshold,
class 3 of 80, a 10×20 box — the row is kept. -/
theorem postprocess_filter_characterization_witness :
    ((processPred (1/2) 80 (fun _ => ([] : List Char).asString)
        ⟨0, 0, 10, 20, 1/2, 3⟩).isSome ↔
      (1/2 : ℚ) ≤ 1/2 ∧ 0 ≤ pyInt 3 ∧ pyInt 3 < (80 : ℤ) ∧
      (0 : ℚ) < 10 ∧ (0 : ℚ) < 20) ∧
    (processPred (1/2) 80 (fun _ => ([] : List Char).asString)
        ⟨0, 0, 10, 20, 1/2, 3⟩).isSome := by
  have h := (postprocess_filter_characterization (1/2) 80
      (fun _ => ([] : List Char).asString) []).1 ⟨0, 0, 10, 20, 1/2, 3⟩
  refine ⟨h, h.mpr ?_⟩
  refine ⟨le_refl _, ?_, ?_, by norm_num, by norm_num⟩
  · show (0 : ℤ) ≤ pyInt 3
    norm_num [pyInt]
  · show pyInt 3 < (80 : ℤ)
    norm_num [pyInt]

/-- A display-space bounding box with integer pixel coordinates. -/
structure DisplayBox where
  x : ℤ
  y : ℤ
  w : ℤ
  h : ℤ
deriving DecidableEq, Repr

/-- Modelled from the spec: the coordinate rescale step of the Detection Worker.
The code under src leaves the appsink frame handler
(`GStreamerController._on_new_frame`) as a Phase-2 stub, so the rescale of
each Detection from inference resolution to display resolution is modelled
from spec section 4.3 ("rescale each Detection from inference resolution to
display resolution via independent X/Y scale factors
(display_dim / inference_dim)") and property P4 (each coordinate truncated
to the nearest integer, i.e. Python int() truncation). -/
def rescaleDetection (infW infH dispW dispH : ℕ) (d : Detection) : DisplayBox :=
  { x := pyInt (d.x * ((dispW : ℚ) / (infW : ℚ)))
    y := pyInt (d.y * ((dispH : ℚ) / (infH : ℚ)))
    w := pyInt (d.w * ((dispW : ℚ) / (infW : ℚ)))
    h := pyInt (d.h * ((dispH : ℚ) / (infH : ℚ))) }

/-- Helper: `pyInt` of a nonnegative rational is its floor. -/
theorem pyInt_of_nonneg (q : ℚ) (h : 0 ≤ q) : pyInt q = ⌊q⌋ := by
  rw [pyInt, if_pos h]

/-- C2: at inference resolution 416×416 and display resolution 640×480 the
published display-space box is the inference-space box rescaled by the
independent factors 640/416 and 480/416 with each coordinate truncated to
an integer; in particular `{x:100, y:50, w:80, h:40}` is published as
`{x:153, y:57, w:123, h:46}`. -/
theorem rescale_416_to_640x480 :
    (∀ d : Detection,
        rescaleDetection 416 416 640 480 d =
          { x := pyInt (d.x * (640 / 416))
            y := pyInt (d.y * (480 / 416))
            w := pyInt (d.w * (640 / 416))
            h := pyInt (d.h * (480 / 416)) }) ∧
    rescaleDetection 416 416 640 480
        { x := 100, y := 50, w := 80, h := 40, class_id := 0,
          class_name := ([] : List Char).asString, confidence := 1 } =
      { x := 153, y := 57, w := 123, h := 46 } := by
  constructor
  · intro d
    simp only [rescaleDetection, DisplayBox.mk.injEq]
    norm_num
  · simp only [rescaleDetection, DisplayBox.mk.injEq]
    refine ⟨?_, ?_, ?_, ?_⟩
    · rw [show ((100 : ℚ) * (((640 : ℕ) : ℚ) / ((416 : ℕ) : ℚ))) = 2000 / 13 by norm_num]
      rw [pyInt_of_nonneg _ (by norm_num), Int.floor_eq_iff]; norm_num
    · rw [show ((50 : ℚ) * (((480 : ℕ) : ℚ) / ((416 : ℕ) : ℚ))) = 750 / 13 by norm_num]
      rw [pyInt_of_nonneg _ (by norm_num), Int.floor_eq_iff]; norm_num
    · rw [show ((80 : ℚ) * (((640 : ℕ) : ℚ) / ((416 : ℕ) : ℚ))) = 1600 / 13 by norm_num]
      rw [pyInt_of_nonneg _ (by norm_num), Int.floor_eq_iff]; norm_num
    · rw [show ((40 : ℚ) * (((480 : ℕ) : ℚ) / ((416 : ℕ) : ℚ))) = 600 / 13 by norm_num]
      rw [pyInt_of_nonneg _ (by norm_num), Int.floor_eq_iff]; norm_num

/-- The named valve elements whose `drop` property the two controllers
mutate. -/
inductive GstValve
  | detect_valve
  | inference_valve
  | apps_valve
deriving DecidableEq, Repr

/-- One observable side effect of a controller method. -/
inductive Action
  | setValveDrop (v : GstValve) (drop : Bool)
  | setSelectorHidden (hidden : Bool)
  | clearDetections
  | setEnabledFlag (v : Bool)
deriving DecidableEq, Repr

/-- An action together with how it was issued: `marshalled = true` when the
action runs inside a work item scheduled onto the GLib main context (via
GLib idle_add or timeout_add), `false` when the method applies it directly
on the calling thread. -/
structure Step where
  act : Action
  marshalled : Bool
deriving DecidableEq, Repr

/-- Whether a step mutates a live GStreamer element property (a valve drop
or the active pad of the output selector), as opposed to a plain Python
attribute write. -/
def Step.isElemMutation : Step → Bool
  | ⟨Action.setValveDrop _ _, _⟩ => true
  | ⟨Action.setSelectorHidden _, _⟩ => true
  | _ => false

/-- The `GStreamerController` attributes the claims are about. A valve
field is `none` when `pipeline.get_by_name` returned no element, otherwise
`some drop` where `drop` is the current drop property of the valve. -/
structure ControllerState where
  pipelineBuilt : Bool
  running : Bool
  playing : Bool
  detectionEnabled : Bool
  detectValve : Option Bool
  inferenceValve : Option Bool
  detections : List Detection
deriving DecidableEq, Repr

/-- Which named elements `get_by_name` produced for
`GStreamerController.build_pipeline` (true = element found). -/
structure CtrlElems where
  preview_sink : Bool
  detect_sink : Bool
  overlay : Bool
  detect_valve : Bool
  inference_valve : Bool
  inference_sink : Bool
deriving DecidableEq, Repr

/-- `GStreamerController.build_pipeline` after a successful parse: the six
element lookups are never validated, so the method always succeeds, leaving
any missing element reference as None (a `none` valve here). The launch
string opens the detection-display valve (`drop=false`, to let the cairo
overlay initialize) and closes the inference valve (`drop=true`);
`_running` and `_detection_enabled` start false from the constructor. -/
def controller_build (e : CtrlElems) : Option ControllerState :=
  some
    { pipelineBuilt := true
      running := false
      playing := false
      detectionEnabled := false
      detectValve := if e.detect_valve then some false else none
      inferenceValve := if e.inference_valve then some true else none
      detections := [] }

/-- The controller state after `build_pipeline` in the normal case where
every named element is found in the parsed graph. -/
def controllerAfterBuild : ControllerState :=
  { pipelineBuilt := true
    running := false
    playing := false
    detectionEnabled := false
    detectValve := some false
    inferenceValve := some true
    detections := [] }

/-- `GStreamerController.start_preview`. The returned Bool is true when the
method scheduled the 500 ms one-shot (`GLib.timeout_add(500,
self._close_detection_valve_initial)`). `gstOk` abstracts whether the
underlying pipeline reached PLAYING within the 5 s bound; on failure the
method raises after resetting `_running` (modelled as `Except.error`). -/
def start_preview (s : ControllerState) (gstOk : Bool) :
    Except Unit (ControllerState × Bool) :=
  if s.running then .ok (s, false)
  else if !gstOk then .error ()
  else .ok ({ s with running := true, playing := true }, true)

/-- `GStreamerController._close_detection_valve_initial` — the body of the
one-shot scheduled by `start_preview`. Returns the new state, the emitted
steps (marshalled: the callback runs on the GLib context) and the boolean
handed back to the GLib source (`False`: do not repeat). -/
def close_detection_valve_initial (s : ControllerState) :
    ControllerState × List Step × Bool :=
  if s.detectValve.isSome && !s.detectionEnabled then
    ({ s with detectValve := some true },
     [⟨.setValveDrop .detect_valve true, true⟩], false)
  else (s, [], false)

/-- `GStreamerController.start_detection`. Guards: not running → return;
already enabled → return. Otherwise each present valve has its drop
property set to False directly on the calling thread (the method contains
no idle_add), then `_detection_enabled` is set. The two independent
`if self.<valve>:` guards are unrolled into a four-way match. -/
def start_detection (s : ControllerState) : ControllerState × List Step :=
  if !s.running then (s, [])
  else if s.detectionEnabled then (s, [])
  else
    match s.detectValve, s.inferenceValve with
    | some _, some _ =>
        ({ s with detectValve := some false, inferenceValve := some false,
                  detectionEnabled := true },
         [⟨.setValveDrop .detect_valve false, false⟩,
          ⟨.setValveDrop .inference_valve false, false⟩,
          ⟨.setEnabledFlag true, false⟩])
    | some _, none =>
        ({ s with detectValve := some false, detectionEnabled := true },
         [⟨.setValveDrop .detect_valve false, false⟩,
          ⟨.setEnabledFlag true, false⟩])
    | none, some _ =>
        ({ s with inferenceValve := some false, detectionEnabled := true },
         [⟨.setValveDrop .inference_valve false, false⟩,
          ⟨.setEnabledFlag true, false⟩])
    | none, none =>
        ({ s with detectionEnabled := true },
         [⟨.setEnabledFlag true, false⟩])

/-- `GStreamerController.stop_detection`. Guard: not enabled → return.
Otherwise each present valve has its drop property set to True directly on
the calling thread, then `self._detections = []`, then
`self._detection_enabled = False`, in that order. -/
def stop_detection (s : ControllerState) : ControllerState × List Step :=
  if !s.detectionEnabled then (s, [])
  else
    match s.detectValve, s.inferenceValve with
    | some _, some _ =>
        ({ s with detectValve := some true, inferenceValve := some true,
                  detections := [], detectionEnabled := false },
         [⟨.setValveDrop .detect_valve true, false⟩,
          ⟨.setValveDrop .inference_valve true, false⟩,
          ⟨.clearDetections, false⟩,
          ⟨.setEnabledFlag false, false⟩])
    | some _, none =>
        ({ s with detectValve := some true, detections := [],
                  detectionEnabled := false },
         [⟨.setValveDrop .detect_valve true, false⟩,
          ⟨.clearDetections, false⟩,
          ⟨.setEnabledFlag false, false⟩])
    | none, some _ =>
        ({ s with inferenceValve := some true, detections := [],
                  detectionEnabled := false },
         [⟨.setValveDrop .inference_valve true, false⟩,
          ⟨.clearDetections, false⟩,
          ⟨.setEnabledFlag false, false⟩])
    | none, none =>
        ({ s with detections := [], detectionEnabled := false },
         [⟨.clearDetections, false⟩,
          ⟨.setEnabledFlag false, false⟩])

/-- `GStreamerController.stop_preview` (net attribute effect; quitting the
GLib loop and joining its thread are not modelled further). The guard is
`if not self.pipeline or not self._running: return`. -/
def stop_preview (s : ControllerState) : ControllerState :=
  if !s.pipelineBuilt || !s.running then s
  else { s with detectionEnabled := false, playing := false, running := false }

/-- GStreamer bus message kinds handled by the two `_on_bus_message`
callbacks. -/
inductive MsgType
  | error
  | warning
  | stateChanged
  | eos
deriving DecidableEq, Repr

/-- `GStreamerController._on_bus_message`: ERROR and EOS call
`self.stop_preview()`; WARNING and STATE_CHANGED only print. -/
def on_bus_message (s : ControllerState) (m : MsgType) : ControllerState :=
  match m with
  | .error => stop_preview s
  | .warning => s
  | .stateChanged => s
  | .eos => stop_preview s

/-- The `GStreamerPreviewDetect` attributes the claims are about. After a
successful `build_pipeline` all seven checked elements are present, so
element presence is not tracked here; `selectorHidden` is the output
selector routing (true = fakesink branch) and `appsValveDrop` the
apps_valve drop property. -/
structure PreviewState where
  pipelineExists : Bool
  running : Bool
  detectionEnabled : Bool
  selectorHidden : Bool
  appsValveDrop : Bool
deriving DecidableEq, Repr

/-- Which named elements the parse and `get_by_name` produced for
`GStreamerPreviewDetect.build_pipeline` (true = element found). -/
structure PreviewElems where
  preview_sink : Bool
  detect_sink : Bool
  detect_hidden : Bool
  overlay : Bool
  appsink : Bool
  apps_valve : Bool
  det_selector : Bool
  tee : Bool
deriving DecidableEq, Repr

/-- `GStreamerPreviewDetect.build_pipeline` after a successful parse: raises
(`none`) exactly when the `if not all([...])` element check fails. The
check covers preview_sink, detect_hidden, detect_sink, the appsink,
apps_valve, det_selector and the tee; the overlay is looked up but not
included, and its draw callback is connected only `if self.overlay`. On
success the initial state routes the selector to the hidden branch, leaves
detection disabled and keeps the apps valve dropping. -/
def preview_build (e : PreviewElems) : Option PreviewState :=
  if !(e.preview_sink && e.detect_hidden && e.detect_sink && e.appsink &&
       e.apps_valve && e.det_selector && e.tee) then none
  else some
    { pipelineExists := true
      running := false
      detectionEnabled := false
      selectorHidden := true
      appsValveDrop := true }

/-- `GStreamerPreviewDetect.set_detection_enabled`: early-returns when there
is no pipeline or when the request equals the current state; otherwise the
whole mutation (`_apply`: selector switch, apps valve, flag) is queued with
`GLib.idle_add` and runs on the GLib main context. The state shown is the
one after the queued `_apply` has run. -/
def set_detection_enabled (s : PreviewState) (enabled : Bool) :
    PreviewState × List Step :=
  if !s.pipelineExists then (s, [])
  else if s.detectionEnabled == enabled then (s, [])
  else
    ({ s with selectorHidden := !enabled, appsValveDrop := !enabled,
              detectionEnabled := enabled },
     [⟨.setSelectorHidden (!enabled), true⟩,
      ⟨.setValveDrop .apps_valve (!enabled), true⟩,
      ⟨.setEnabledFlag enabled, true⟩])

/-- `GStreamerPreviewDetect.stop`: tears the pipeline down and clears all
runtime references (net attribute effect). -/
def preview_stop (s : PreviewState) : PreviewState :=
  if !s.pipelineExists then s
  else { s with running := false, pipelineExists := false }

/-- `GStreamerPreviewDetect._on_bus_message`: ERROR and EOS schedule
`GLib.idle_add(self.stop)` — the returned Bool is true when such a stop was
scheduled; WARNING and STATE_CHANGED only print. -/
def preview_on_bus_message (s : PreviewState) (m : MsgType) :
    PreviewState × Bool :=
  match m with
  | .error => (s, true)
  | .warning => (s, false)
  | .stateChanged => (s, false)
  | .eos => (s, true)

/-- C3: whenever a detection-mode toggle call changes the mode, both
toggle-able branches move together to the same new state. In
`GStreamerController` (both valves present, as after a successful build),
`start_detection` leaves both the detection-display valve and the inference
valve passing (`drop=false`) and `stop_detection` leaves both dropping
(`drop=true`); in `GStreamerPreviewDetect`, `set_detection_enabled` moves
the output selector and the apps valve together (selector on the visible
branch and valve passing exactly when enabling). -/
theorem detection_mode_toggles_both_branches (s : ControllerState)
    (ps : PreviewState) (b : Bool)
    (hd : s.detectValve.isSome) (hi : s.inferenceValve.isSome) :
    ((start_detection s).1.detectionEnabled ≠ s.detectionEnabled →
      (start_detection s).1.detectValve = some false ∧
      (start_detection s).1.inferenceValve = some false) ∧
    ((stop_detection s).1.detectionEnabled ≠ s.detectionEnabled →
      (stop_detection s).1.detectValve = some true ∧
      (stop_detection s).1.inferenceValve = some true) ∧
    ((set_detection_enabled ps b).1.detectionEnabled ≠ ps.detectionEnabled →
      (set_detection_enabled ps b).1.selectorHidden = !b ∧
      (set_detection_enabled ps b).1.appsValveDrop = !b ∧
      (set_detection_enabled ps b).1.detectionEnabled = b) := by
  rcases s with ⟨pb, run, play, de, dvo, ivo, dets⟩
  cases dvo with
  | none => simp at hd
  | some dv =>
    cases ivo with
    | none => simp at hi
    | some iv =>
      rcases ps with ⟨pe, prun, pde, sh, avd⟩
      refine ⟨?_, ?_, ?_⟩
      · cases run with
        | false => intro hne; simp [start_detection] at hne
        | true =>
          cases de with
          | false => intro _; simp [start_detection]
          | true => intro hne; simp [start_detection] at hne
      · cases de with
        | false => intro hne; simp [stop_detection] at hne
        | true => intro _; simp [stop_detection]
      · cases pe with
        | false => intro hne; simp [set_detection_enabled] at hne
        | true =>
          cases pde with
          | false =>
            cases b with
            | false => intro hne; simp [set_detection_enabled] at hne
            | true => intro _; simp [set_detection_enabled]
          | true =>
            cases b with
            | false => intro _; simp [set_detection_enabled]
            | true => intro hne; simp [set_detection_enabled] at hne

/-- Witness for C3: from a running, detection-disabled controller state and
a built, hidden preview state, enabling detection opens both controller
valves and switches both preview branches. -/
theorem detection_mode_toggles_both_branches_witness :
    (start_detection ⟨true, true, true, false, some true, some true, []⟩).1.detectValve
        = some false ∧
    (start_detection ⟨true, true, true, false, some true, some true, []⟩).1.inferenceValve
        = some false ∧
    (set_detection_enabled ⟨true, true, false, true, true⟩ true).1.selectorHidden
        = !true ∧
    (set_detection_enabled ⟨true, true, false, true, true⟩ true).1.appsValveDrop
        = !true := by
  have h := detection_mode_toggles_both_branches
      ⟨true, true, true, false, some true, some true, []⟩
      ⟨true, true, false, true, true⟩ true (by decide) (by decide)
  obtain ⟨h1, h2⟩ := h.1 (by decide)
  obtain ⟨h3, h4, -⟩ := h.2.2 (by decide)
  exact ⟨h1, h2, h3, h4⟩

/-- C4: toggling to the current mode is a no-op that returns before touching
any element property: with detection already enabled, `start_detection`
(and any number of repeated calls) leaves the attribute state and the
valves unchanged and emits no step; likewise `stop_detection` while
disabled, and `set_detection_enabled` with the current value. -/
theorem detection_toggle_idempotent (s t : ControllerState)
    (ps : PreviewState) (b : Bool)
    (hs : s.detectionEnabled = true) (ht : t.detectionEnabled = false)
    (hb : ps.detectionEnabled = b) :
    start_detection s = (s, []) ∧
    stop_detection t = (t, []) ∧
    set_detection_enabled ps b = (ps, []) ∧
    (∀ n : ℕ, (fun u => (start_detection u).1)^[n] s = s) ∧
    (∀ n : ℕ, (fun u => (stop_detection u).1)^[n] t = t) := by
  have h1 : start_detection s = (s, []) := by
    unfold start_detection
    rcases s with ⟨pb, run, play, de, dvo, ivo, dets⟩
    cases run <;> simp_all
  have h2 : stop_detection t = (t, []) := by
    unfold stop_detection
    rcases t with ⟨pb, run, play, de, dvo, ivo, dets⟩
    simp_all
  refine ⟨h1, h2, ?_, ?_, ?_⟩
  · unfold set_detection_enabled
    rcases ps with ⟨pe, prun, pde, sh, avd⟩
    cases pe <;> simp_all
  · intro n
    exact Function.iterate_fixed (by rw [h1]) n
  · intro n
    exact Function.iterate_fixed (by rw [h2]) n

/-- Witness for C4: a second `start_detection` while enabled, a second
`stop_detection` while disabled, and a redundant `set_detection_enabled`
all leave their concrete states untouched, as does iterating the enable
call five more times. -/
theorem detection_toggle_idempotent_witness :
    start_detection ⟨true, true, true, true, some false, some false, []⟩
      = (⟨true, true, true, true, some false, some false, []⟩, []) ∧
    stop_detection ⟨true, true, true, false, some true, some true, []⟩
      = (⟨true, true, true, false, some true, some true, []⟩, []) ∧
    set_detection_enabled ⟨true, true, true, false, false⟩ true
      = (⟨true, true, true, false, false⟩, []) ∧
    (fun u => (start_detection u).1)^[5]
        ⟨true, true, true, true, some false, some false, []⟩
      = ⟨true, true, true, true, some false, some false, []⟩ := by
  have h := detection_toggle_idempotent
      ⟨true, true, true, true, some false, some false, []⟩
      ⟨true, true, true, false, some true, some true, []⟩
      ⟨true, true, true, false, false⟩ true
      (by decide) (by decide) (by decide)
  exact ⟨h.1, h.2.1, h.2.2.1, h.2.2.2.1 5⟩

/-- C5 counterexample: from a running, detection-disabled controller state
with both valves present, `GStreamerController.start_detection` — invoked
from the calling thread (the Qt UI thread in `main_pyside_Gst.py`) — emits
valve property mutations applied directly, not marshalled onto the GLib
context, refuting the claim that cross-thread toggles never mutate element
properties directly. -/
theorem start_detection_mutates_directly :
    ((start_detection ⟨true, true, true, false, some true, some true, []⟩).2.any
      (fun st => st.isElemMutation && !st.marshalled)) = true := by
  decide

/-- C5 amended: in `GStreamerPreviewDetect.set_detection_enabled` every
step — in particular every valve/selector property mutation — runs inside
the work item queued with `GLib.idle_add`, i.e. marshalled onto the GLib
main context; in `GStreamerController`, by contrast, `start_detection` and
`stop_detection` apply all their steps, valve mutations included, directly
on the calling thread. -/
theorem preview_toggle_marshalled_controller_direct (ps : PreviewState)
    (b : Bool) (s : ControllerState) :
    ((set_detection_enabled ps b).2.all (fun st => st.marshalled)) = true ∧
    ((start_detection s).2.all (fun st => !st.marshalled)) = true ∧
    ((stop_detection s).2.all (fun st => !st.marshalled)) = true := by
  refine ⟨?_, ?_, ?_⟩
  · unfold set_detection_enabled
    rcases ps with ⟨pe, prun, pde, sh, avd⟩
    cases pe <;> cases pde <;> cases b <;> simp
  · unfold start_detection
    rcases s with ⟨pb, run, play, de, dvo, ivo, dets⟩
    cases run <;> cases de <;> cases dvo <;> cases ivo <;> simp
  · unfold stop_detection
    rcases s with ⟨pb, run, play, de, dvo, ivo, dets⟩
    cases de <;> cases dvo <;> cases ivo <;> simp

/-- C6: the detection-display valve starts open (`drop=false` in the launch
string); a successful `start_preview` from a non-running state schedules
the 500 ms one-shot; when the one-shot fires (with the valve element
present) it emits the single marshalled close mutation — and leaves the
valve closed — exactly when detection mode has not been enabled by then,
leaves the state untouched when detection mode was enabled in the meantime,
and returns False to the GLib source so it never repeats. -/
theorem initial_valve_open_then_one_shot_close (s t : ControllerState)
    (hs : s.running = false) (ht : t.detectValve.isSome) :
    controllerAfterBuild.detectValve = some false ∧
    start_preview s true = .ok ({ s with running := true, playing := true }, true) ∧
    ((close_detection_valve_initial t).2.1
        = [⟨.setValveDrop .detect_valve true, true⟩] ↔
      t.detectionEnabled = false) ∧
    (t.detectionEnabled = false →
      (close_detection_valve_initial t).1.detectValve = some true) ∧
    (t.detectionEnabled = true → (close_detection_valve_initial t).1 = t) ∧
    (close_detection_valve_initial t).2.2 = false := by
  rcases t with ⟨pb, run, play, de, dvo, ivo, dets⟩
  cases dvo with
  | none => simp at ht
  | some dv =>
    refine ⟨rfl, ?_, ?_, ?_, ?_, ?_⟩
    · unfold start_preview
      rw [hs]
      simp
    · cases de <;> simp [close_detection_valve_initial]
    · intro hde
      simp only at hde
      subst hde
      simp [close_detection_valve_initial]
    · intro hde
      simp only at hde
      subst hde
      simp [close_detection_valve_initial]
    · cases de <;> simp [close_detection_valve_initial]

/-- Witness for C6: starting from the freshly built state verifies the
valve is open and the one-shot is scheduled; firing the one-shot on a
running, never-enabled state closes the valve and does not repeat. -/
theorem initial_valve_open_then_one_shot_close_witness :
    controllerAfterBuild.detectValve = some false ∧
    start_preview controllerAfterBuild true
      = .ok ({ controllerAfterBuild with running := true, playing := true }, true) ∧
    (close_detection_valve_initial
        ⟨true, true, true, false, some false, some true, []⟩).1.detectValve
      = some true ∧
    (close_detection_valve_initial
        ⟨true, true, true, false, some false, some true, []⟩).2.2 = false := by
  have h := initial_valve_open_then_one_shot_close controllerAfterBuild
      ⟨true, true, true, false, some false, some true, []⟩ (by decide) (by decide)
  exact ⟨h.1, h.2.1, h.2.2.2.1 (by decide), h.2.2.2.2.2⟩

/-- C7: while the pipeline runs, a bus ERROR or EOS message always triggers
a full stop — `GStreamerController._on_bus_message` calls `stop_preview`,
reaching the stopped state (`_running` false, pipeline down, detection
disabled), and `GStreamerPreviewDetect._on_bus_message` schedules
`self.stop` via `GLib.idle_add`, whose run tears the pipeline down — while
WARNING and STATE_CHANGED messages only log: they leave the state unchanged
and schedule nothing. -/
theorem bus_error_eos_full_stop (s : ControllerState) (ps : PreviewState)
    (hb : s.pipelineBuilt = true) (hr : s.running = true)
    (hp : ps.pipelineExists = true) :
    ((on_bus_message s .error).running = false ∧
     (on_bus_message s .error).playing = false ∧
     (on_bus_message s .error).detectionEnabled = false) ∧
    ((on_bus_message s .eos).running = false ∧
     (on_bus_message s .eos).playing = false ∧
     (on_bus_message s .eos).detectionEnabled = false) ∧
    on_bus_message s .warning = s ∧
    on_bus_message s .stateChanged = s ∧
    (preview_on_bus_message ps .error).2 = true ∧
    (preview_on_bus_message ps .eos).2 = true ∧
    preview_on_bus_message ps .warning = (ps, false) ∧
    preview_on_bus_message ps .stateChanged = (ps, false) ∧
    (preview_stop ps).pipelineExists = false ∧
    (preview_stop ps).running = false := by
  have hstop : stop_preview s
      = { s with detectionEnabled := false, playing := false, running := false } := by
    unfold stop_preview
    rw [hb, hr]
    simp
  have hpstop : preview_stop ps
      = { ps with running := false, pipelineExists := false } := by
    unfold preview_stop
    rw [hp]
    simp
  refine ⟨?_, ?_, rfl, rfl, rfl, rfl, rfl, rfl, ?_, ?_⟩
  · simp [on_bus_message, hstop]
  · simp [on_bus_message, hstop]
  · rw [hpstop]
  · rw [hpstop]

/-- Witness for C7: on a concrete running state an ERROR message stops the
pipeline while a WARNING leaves it untouched, and the preview class
schedules its stop on EOS. -/
theorem bus_error_eos_full_stop_witness :
    (on_bus_message ⟨true, true, true, true, some false, some false, []⟩ .error).running
      = false ∧
    on_bus_message ⟨true, true, true, true, some false, some false, []⟩ .warning
      = ⟨true, true, true, true, some false, some false, []⟩ ∧
    (preview_on_bus_message ⟨true, true, true, false, false⟩ .eos).2 = true := by
  have h := bus_error_eos_full_stop
      ⟨true, true, true, true, some false, some false, []⟩
      ⟨true, true, true, false, false⟩ (by decide) (by decide) (by decide)
  exact ⟨h.1.1, h.2.2.1, h.2.2.2.2.2.1⟩

/-- C8 counterexample: a parsed graph in which every element except the
overlay draw-hook is found makes `GStreamerPreviewDetect.build_pipeline`
succeed (its `all([...])` check omits `self.overlay`), and
`GStreamerController.build_pipeline` succeeds even when every single
element lookup fails — so build does not raise on a missing required
element, refuting the claim as stated. -/
theorem build_missing_element_no_failure :
    (preview_build ⟨true, true, true, false, true, true, true, true⟩).isSome = true ∧
    (controller_build ⟨false, false, false, false, false, false⟩).isSome = true := by
  decide

/-- C8 amended: `GStreamerPreviewDetect.build_pipeline` raises exactly when
one of the seven checked elements (preview sink, hidden and visible
detection sinks, inference appsink, apps valve, output selector, tee) is
missing — a missing overlay draw-hook never affects the outcome — while
`GStreamerController.build_pipeline` performs no element-presence
validation at all and always returns, leaving missing elements as None. -/
theorem build_element_check_exact (e : PreviewElems) (c : CtrlElems) :
    ((preview_build e).isSome ↔
      (e.preview_sink && e.detect_hidden && e.detect_sink && e.appsink &&
       e.apps_valve && e.det_selector && e.tee) = true) ∧
    (preview_build { e with overlay := true }).isSome
      = (preview_build { e with overlay := false }).isSome ∧
    (controller_build c).isSome = true := by
  refine ⟨?_, rfl, rfl⟩
  unfold preview_build
  cases hcond : (e.preview_sink && e.detect_hidden && e.detect_sink && e.appsink &&
      e.apps_valve && e.det_selector && e.tee) with
  | false => simp [hcond]
  | true => simp [hcond]

/-- Witness for C8 amended: with all seven checked elements present the
build succeeds; with the tee missing it raises; the controller build
succeeds with no inference valve found. -/
theorem build_element_check_exact_witness :
    (preview_build ⟨true, true, true, true, true, true, true, true⟩).isSome = true ∧
    (preview_build ⟨true, true, true, true, true, true, true, false⟩).isSome = false ∧
    (controller_build ⟨true, true, true, true, false, true⟩).isSome = true := by
  have h1 := build_element_check_exact
      ⟨true, true, true, true, true, true, true, true⟩
      ⟨true, true, true, true, false, true⟩
  exact ⟨h1.1.mpr (by decide), by decide, h1.2.2⟩

/-- C9: calling `start_detection` before the pipeline has been started
(`_running` false) is a complete no-op: the method returns at its first
guard, so the detection-enabled flag stays false, no valve property is
changed and no step is emitted. -/
theorem start_detection_before_running_noop (s : ControllerState)
    (h : s.running = false) (h0 : s.detectionEnabled = false) :
    start_detection s = (s, []) ∧
    (start_detection s).1.detectionEnabled = false ∧
    (start_detection s).1.detectValve = s.detectValve ∧
    (start_detection s).1.inferenceValve = s.inferenceValve := by
  have h1 : start_detection s = (s, []) := by
    unfold start_detection
    rw [h]
    simp
  refine ⟨h1, ?_, ?_, ?_⟩
  · rw [h1]
    exact h0
  · rw [h1]
  · rw [h1]

/-- Witness for C9: enabling detection on the freshly built (not yet
started) state changes nothing. -/
theorem start_detection_before_running_noop_witness :
    start_detection controllerAfterBuild = (controllerAfterBuild, []) ∧
    (start_detection controllerAfterBuild).1.detectionEnabled = false :=
  have h := start_detection_before_running_noop controllerAfterBuild rfl rfl
  ⟨h.1, h.2.1⟩

/-- C10: `stop_detection` called while detection mode is enabled clears the
shared `_detections` slot to the empty list and does so before marking
detection disabled — the emitted step sequence ends with the clear
immediately followed by the flag write — so a subsequent overlay draw or a
later re-enable observes an empty DetectionSet rather than stale boxes. -/
theorem stop_detection_clears_before_disable (s : ControllerState)
    (h : s.detectionEnabled = true) :
    (stop_detection s).1.detections = [] ∧
    (stop_detection s).1.detectionEnabled = false ∧
    ∃ pre : List Step,
      (stop_detection s).2
        = pre ++ [⟨.clearDetections, false⟩, ⟨.setEnabledFlag false, false⟩] := by
  rcases s with ⟨pb, run, play, de, dvo, ivo, dets⟩
  simp only at h
  subst h
  cases dvo with
  | none =>
    cases ivo with
    | none =>
      refine ⟨?_, ?_, [], ?_⟩ <;> simp [stop_detection]
    | some iv =>
      refine ⟨?_, ?_, [⟨.setValveDrop .inference_valve true, false⟩], ?_⟩ <;>
        simp [stop_detection]
  | some dv =>
    cases ivo with
    | none =>
      refine ⟨?_, ?_, [⟨.setValveDrop .detect_valve true, false⟩], ?_⟩ <;>
        simp [stop_detection]
    | some iv =>
      refine ⟨?_, ?_, [⟨.setValveDrop .detect_valve true, false⟩,
          ⟨.setValveDrop .inference_valve true, false⟩], ?_⟩ <;>
        simp [stop_detection]

/-- Witness for C10: stopping detection on a state holding one stale box
empties the slot, disables the mode, and the step sequence places the clear
before the flag write. -/
theorem stop_detection_clears_before_disable_witness :
    (stop_detection ⟨true, true, true, true, some false, some false,
        [⟨1, 2, 3, 4, 0, ([] : List Char).asString, 1/2⟩]⟩).1.detections = [] ∧
    (stop_detection ⟨true, true, true, true, some false, some false,
        [⟨1, 2, 3, 4, 0, ([] : List Char).asString, 1/2⟩]⟩).1.detectionEnabled
      = false ∧
    (stop_detection ⟨true, true, true, true, some false, some false,
        [⟨1, 2, 3, 4, 0, ([] : List Char).asString, 1/2⟩]⟩).2
      = [⟨.setValveDrop .detect_valve true, false⟩,
         ⟨.setValveDrop .inference_valve true, false⟩,
         ⟨.clearDetections, false⟩, ⟨.setEnabledFlag false, false⟩] := by
  have h := stop_detection_clears_before_disable
      ⟨true, true, true, true, some false, some false,
        [⟨1, 2, 3, 4, 0, ([] : List Char).asString, 1/2⟩]⟩ rfl
  exact ⟨h.1, h.2.1, rfl⟩

end EdgeAI
